import Mathlib

/-!
Verification of the Scenario Playback Engine of the cybersecurity training
dashboard (static/js/simulation.js).  The JavaScript code is shallowly
embedded: the scenario catalog, the attack-vector inference, the playback
session (interval-driven delivery into the event log and defense ledger),
the topology graph with its scenario mutations and reset routine, and the
scoring of the final report are all translated into executable Lean
definitions, and the testable properties of the spec are settled against them.
-/

namespace CyberSim

/-- Event categories of a script event (the `type` field in simulation.js). -/
inductive EventType
  | attack
  | defense
  | network
  | alert
deriving DecidableEq, Repr

/-- A scripted simulation event, mirroring the object literals returned by
`getScenarioEvents`: `time`, `type`, `message`, and the optional `defense`
and `effectiveness` fields carried only by defense events. -/
structure ScriptEvent where
  time : String
  type : EventType
  message : String
  defense : Option String := none
  effectiveness : Option String := none
deriving DecidableEq, Repr

/-- Default event used for guarded indexed access (never observed: every
access is guarded by a bounds check, as the JavaScript loop guards `i`). -/
def dummyEvent : ScriptEvent :=
  { time := "", type := EventType.alert, message := "" }

/-- Helper: `charListPre pat l` means `pat` is a prefix of `l` (character lists,
exact case-sensitive comparison, as JavaScript string matching is). -/
def charListPre : List Char → List Char → Bool
  | [], _ => true
  | _ :: _, [] => false
  | a :: as, b :: bs => a == b && charListPre as bs

/-- Helper: `charListSub pat l` means `pat` occurs as a contiguous run inside `l`. -/
def charListSub (pat : List Char) : List Char → Bool
  | [] => charListPre pat []
  | c :: rest => charListPre pat (c :: rest) || charListSub pat rest

/-- JavaScript `s.includes(pat)`: case-sensitive substring containment. -/
def strContains (s pat : String) : Bool :=
  charListSub pat.data s.data

/-- Embeds `determineAttackVector` (simulation.js lines 502-514): an ordered,
first-match-wins list of case-sensitive substring rules over the event
message, falling through to "Unknown". -/
def determineAttackVector (message : String) : String :=
  if strContains message "phishing" then "Phishing"
  else if strContains message "malicious attachment" then "Malicious Attachment"
  else if strContains message "command and control" then "C2 Communication"
  else if strContains message "escalate privileges" then "Privilege Escalation"
  else if strContains message "lateral movement" then "Lateral Movement"
  else if strContains message "file access" then "Unauthorized Access"
  else if strContains message "encryption" then "Encryption"
  else if strContains message "DDoS" then "DDoS"
  else if strContains message "SQL" then "SQL Injection"
  else if strContains message "exfiltration" then "Data Exfiltration"
  else "Unknown"

/-- The "ransomware" scenario script (simulation.js lines 524-542). -/
def ransomwareEvents : List ScriptEvent :=
  [ { time := "00:00", type := EventType.attack,
      message := "Initial access attempt detected via phishing email with malicious attachment" },
    { time := "00:05", type := EventType.defense,
      message := "Email filtering identified suspicious attachment pattern",
      defense := some "Email scanning", effectiveness := some "Medium" },
    { time := "00:10", type := EventType.attack,
      message := "User opened malicious attachment on Workstation 2" },
    { time := "00:12", type := EventType.attack,
      message := "Malware establishes connection to command and control server" },
    { time := "00:15", type := EventType.defense,
      message := "Unusual network connection attempt detected",
      defense := some "Network monitoring", effectiveness := some "High" },
    { time := "00:18", type := EventType.defense,
      message := "Connection to known malicious IP blocked",
      defense := some "Firewall rule", effectiveness := some "High" },
    { time := "00:25", type := EventType.attack,
      message := "Malware attempting to escalate privileges on Workstation 2" },
    { time := "00:30", type := EventType.attack,
      message := "Lateral movement attempt detected from Workstation 2 to Admin machine" },
    { time := "00:35", type := EventType.defense,
      message := "Lateral movement partially blocked",
      defense := some "Network segmentation", effectiveness := some "Medium" },
    { time := "00:40", type := EventType.attack,
      message := "Ransomware payload trying to access file shares" },
    { time := "00:42", type := EventType.defense,
      message := "Abnormal file access pattern detected",
      defense := some "Behavior analysis", effectiveness := some "High" },
    { time := "00:45", type := EventType.defense,
      message := "File encryption attempt blocked on network shares",
      defense := some "Access control", effectiveness := some "High" },
    { time := "00:50", type := EventType.attack,
      message := "Encryption of local files in progress on Workstation 2" },
    { time := "00:55", type := EventType.defense,
      message := "Process terminated based on behavior pattern",
      defense := some "Endpoint protection", effectiveness := some "Medium" },
    { time := "01:00", type := EventType.network,
      message := "Isolating Workstation 2 from network to prevent further spread" },
    { time := "01:05", type := EventType.defense,
      message := "System restoration from backup initiated for Workstation 2",
      defense := some "Recovery protocol", effectiveness := some "High" } ]

/-- The "ddos" scenario script (simulation.js lines 544-562). -/
def ddosEvents : List ScriptEvent :=
  [ { time := "00:00", type := EventType.network,
      message := "Unusual increase in traffic detected on external interfaces" },
    { time := "00:05", type := EventType.attack,
      message := "Potential DDoS attack starting - SYN flood pattern detected" },
    { time := "00:08", type := EventType.defense,
      message := "Rate limiting applied to suspicious traffic sources",
      defense := some "Traffic shaping", effectiveness := some "Medium" },
    { time := "00:12", type := EventType.attack,
      message := "Attack ramping up - multiple attack vectors detected" },
    { time := "00:15", type := EventType.network,
      message := "Web servers experiencing increased load" },
    { time := "00:18", type := EventType.defense,
      message := "Traffic analysis identifies botnet sources",
      defense := some "Threat intelligence", effectiveness := some "High" },
    { time := "00:22", type := EventType.attack,
      message := "Layer 7 attack targeting authentication endpoints" },
    { time := "00:25", type := EventType.defense,
      message := "Web application firewall rules updated",
      defense := some "WAF rules", effectiveness := some "High" },
    { time := "00:30", type := EventType.network,
      message := "Activating additional capacity to absorb attack" },
    { time := "00:35", type := EventType.defense,
      message := "DDoS mitigation service engaged",
      defense := some "Cloud mitigation", effectiveness := some "High" },
    { time := "00:40", type := EventType.attack,
      message := "Attack shifting to DNS amplification" },
    { time := "00:45", type := EventType.defense,
      message := "DNS filtering implemented",
      defense := some "DNS protection", effectiveness := some "Medium" },
    { time := "00:50", type := EventType.network,
      message := "Traffic levels beginning to normalize" },
    { time := "00:55", type := EventType.defense,
      message := "Blocking traffic from 150 identified attack sources",
      defense := some "IP blocking", effectiveness := some "High" },
    { time := "01:00", type := EventType.network,
      message := "Service availability restored to normal levels" },
    { time := "01:05", type := EventType.defense,
      message := "Post-attack analysis and rule optimization initiated",
      defense := some "Forensics", effectiveness := some "High" } ]

/-- The "data_exfiltration" scenario script (simulation.js lines 564-582). -/
def dataExfiltrationEvents : List ScriptEvent :=
  [ { time := "00:00", type := EventType.attack,
      message := "Suspicious login detected from unusual location" },
    { time := "00:05", type := EventType.defense,
      message := "Multi-factor authentication challenge issued",
      defense := some "MFA", effectiveness := some "High" },
    { time := "00:10", type := EventType.attack,
      message := "Authentication bypass attempt detected" },
    { time := "00:15", type := EventType.attack,
      message := "Privilege escalation observed via service account compromise" },
    { time := "00:20", type := EventType.defense,
      message := "Unusual account behavior detected",
      defense := some "Behavior monitoring", effectiveness := some "Medium" },
    { time := "00:25", type := EventType.attack,
      message := "Database query with excessive data retrieval executed" },
    { time := "00:30", type := EventType.defense,
      message := "Database activity monitoring alert triggered",
      defense := some "DAM", effectiveness := some "High" },
    { time := "00:35", type := EventType.attack,
      message := "Data staging observed in temporary directory" },
    { time := "00:40", type := EventType.network,
      message := "Unusual outbound connection established to unknown external IP" },
    { time := "00:45", type := EventType.defense,
      message := "Data Loss Prevention system blocked file transfer",
      defense := some "DLP", effectiveness := some "High" },
    { time := "00:50", type := EventType.attack,
      message := "Attempt to compress and encrypt sensitive data detected" },
    { time := "00:55", type := EventType.defense,
      message := "File integrity monitoring alert triggered",
      defense := some "FIM", effectiveness := some "Medium" },
    { time := "01:00", type := EventType.network,
      message := "Suspicious DNS queries detected - potential covert channel" },
    { time := "01:05", type := EventType.defense,
      message := "DNS exfiltration blocked via pattern matching",
      defense := some "DNS filters", effectiveness := some "High" },
    { time := "01:10", type := EventType.defense,
      message := "Account access revoked and investigation initiated",
      defense := some "Access control", effectiveness := some "High" },
    { time := "01:15", type := EventType.defense,
      message := "Security team performed isolation of affected systems",
      defense := some "Containment", effectiveness := some "High" } ]

/-- The fallback script returned for every scenario key outside the switch
(simulation.js lines 584-592, "Default to ransomware scenario"). -/
def defaultEvents : List ScriptEvent :=
  [ { time := "00:00", type := EventType.attack,
      message := "Initial access attempt detected via phishing email with malicious attachment" },
    { time := "00:05", type := EventType.defense,
      message := "Email filtering identified suspicious attachment pattern",
      defense := some "Email scanning", effectiveness := some "Medium" },
    { time := "00:10", type := EventType.attack,
      message := "User opened malicious attachment on Workstation 2" },
    { time := "00:15", type := EventType.defense,
      message := "Endpoint protection blocked initial execution",
      defense := some "Endpoint protection", effectiveness := some "High" } ]

/-- Embeds `getScenarioEvents` (simulation.js lines 521-593): a switch on the
scenario key with a default branch. -/
def getScenarioEvents (scenario : String) : List ScriptEvent :=
  if scenario = "ransomware" then ransomwareEvents
  else if scenario = "ddos" then ddosEvents
  else if scenario = "data_exfiltration" then dataExfiltrationEvents
  else defaultEvents

/-- The closed scenario enumeration of the catalog, as the specification
states it (spec section 3, ScenarioScript). -/
def catalogKeys : List String :=
  ["ransomware", "phishing", "ddos", "data_exfiltration", "supply_chain", "generic"]

/-! ## Topology graph (initNetworkVisualization, scenario timers, reset) -/

/-- A vis.js node color pair (`background`, `border`). -/
structure NodeColor where
  background : String
  border : String
deriving DecidableEq, Repr

/-- A topology node: `id`, `shape`, and its current color styling.
`color := none` models a node created without a `color` attribute
(the icon-shaped Admin node, simulation.js line 155). -/
structure GNode where
  id : Nat
  shape : String
  color : Option NodeColor
deriving DecidableEq, Repr

/-- A topology edge.  `eid` is the creation index (the code addresses edges
positionally via `edges.get()[k].id`).  `color`, `dashes` and `width` are
the effective rendered styling, initially the global edge options
(color `#495057`, solid, width 2; simulation.js lines 182-186). -/
structure GEdge where
  eid : Nat
  src : Nat
  tgt : Nat
  color : String
  dashes : Bool
  width : Nat
deriving DecidableEq, Repr

/-- The topology graph held by the single `networkInstance`. -/
structure Graph where
  nodes : List GNode
  edges : List GEdge
deriving DecidableEq, Repr

/-- Default edge used for guarded positional access in theorem statements. -/
def dummyEdge : GEdge :=
  { eid := 0, src := 0, tgt := 0, color := "", dashes := false, width := 0 }

/-- The initial topology created once at `initNetworkVisualization`
(simulation.js lines 149-169). -/
def initGraph : Graph :=
  { nodes :=
      [ { id := 1, shape := "cloud", color := some { background := "#6c757d", border := "#495057" } },
        { id := 2, shape := "box", color := some { background := "#0d6efd", border := "#0a58ca" } },
        { id := 3, shape := "server", color := some { background := "#198754", border := "#146c43" } },
        { id := 4, shape := "server", color := some { background := "#198754", border := "#146c43" } },
        { id := 5, shape := "database", color := some { background := "#198754", border := "#146c43" } },
        { id := 6, shape := "icon", color := none },
        { id := 7, shape := "desktop", color := some { background := "#198754", border := "#146c43" } },
        { id := 8, shape := "desktop", color := some { background := "#198754", border := "#146c43" } } ],
    edges :=
      [ { eid := 0, src := 1, tgt := 2, color := "#495057", dashes := false, width := 2 },
        { eid := 1, src := 2, tgt := 3, color := "#495057", dashes := false, width := 2 },
        { eid := 2, src := 2, tgt := 4, color := "#495057", dashes := false, width := 2 },
        { eid := 3, src := 3, tgt := 5, color := "#495057", dashes := false, width := 2 },
        { eid := 4, src := 4, tgt := 5, color := "#495057", dashes := false, width := 2 },
        { eid := 5, src := 2, tgt := 6, color := "#495057", dashes := false, width := 2 },
        { eid := 6, src := 6, tgt := 7, color := "#495057", dashes := false, width := 2 },
        { eid := 7, src := 6, tgt := 8, color := "#495057", dashes := false, width := 2 } ] }

/-- A single graph mutation issued by a scenario timer via
`nodes.update` / `edges.update`. -/
inductive Mut
  | nodeColor (nid : Nat) (c : NodeColor)
  | edgeColor (idx : Nat) (c : String)
  | edgeWidth (idx : Nat) (w : Nat)
  | edgeColorWidth (idx : Nat) (c : String) (w : Nat)
  | edgeColorDashes (idx : Nat) (c : String) (d : Bool)
deriving DecidableEq, Repr

/-- Apply one mutation: vis.js `update` merges the given attributes into the
record with the matching id, leaving all other attributes in place. -/
def applyMut : Mut → Graph → Graph
  | Mut.nodeColor nid c, g =>
      { g with nodes := g.nodes.map fun v =>
          if v.id = nid then { v with color := some c } else v }
  | Mut.edgeColor idx c, g =>
      { g with edges := g.edges.map fun e =>
          if e.eid = idx then { e with color := c } else e }
  | Mut.edgeWidth idx w, g =>
      { g with edges := g.edges.map fun e =>
          if e.eid = idx then { e with width := w } else e }
  | Mut.edgeColorWidth idx c w, g =>
      { g with edges := g.edges.map fun e =>
          if e.eid = idx then { e with color := c, width := w } else e }
  | Mut.edgeColorDashes idx c d, g =>
      { g with edges := g.edges.map fun e =>
          if e.eid = idx then { e with color := c, dashes := d } else e }

/-- Embeds `simulateRansomwareAttack` (simulation.js lines 622-698): the six timed
steps, each a batch of updates.  Step 5 passes `dashes: [5, 5]` nested
inside the edge `color` object (line 682); the edge color object of the renderer
has no `dashes` key, so only the color takes effect. -/
def ransomwareSteps : List (List Mut) :=
  [ [ Mut.nodeColor 8 { background := "#dc3545", border := "#b02a37" } ],
    [ Mut.edgeColor 6 "#dc3545",
      Mut.nodeColor 6 { background := "#fd7e14", border := "#ca6510" } ],
    [ Mut.nodeColor 6 { background := "#dc3545", border := "#b02a37" },
      Mut.nodeColor 7 { background := "#fd7e14", border := "#ca6510" } ],
    [ Mut.edgeColor 2 "#fd7e14", Mut.edgeColor 3 "#fd7e14",
      Mut.nodeColor 3 { background := "#fd7e14", border := "#ca6510" },
      Mut.nodeColor 4 { background := "#fd7e14", border := "#ca6510" } ],
    [ Mut.edgeColor 6 "#495057" ],
    [ Mut.nodeColor 3 { background := "#198754", border := "#146c43" },
      Mut.nodeColor 4 { background := "#198754", border := "#146c43" },
      Mut.edgeColor 2 "#495057", Mut.edgeColor 3 "#495057" ] ]

/-- Embeds `simulateDDoSAttack` (simulation.js lines 703-750): six timed steps.
Step 4 widens edge 0 to width 6; step 5 narrows it back and recolors. -/
def ddosSteps : List (List Mut) :=
  [ [ Mut.nodeColor 1 { background := "#dc3545", border := "#b02a37" },
      Mut.edgeColor 0 "#dc3545" ],
    [ Mut.nodeColor 2 { background := "#fd7e14", border := "#ca6510" } ],
    [ Mut.nodeColor 3 { background := "#fd7e14", border := "#ca6510" },
      Mut.edgeColor 1 "#dc3545" ],
    [ Mut.edgeWidth 0 6 ],
    [ Mut.nodeColor 2 { background := "#0d6efd", border := "#0a58ca" },
      Mut.edgeColorWidth 0 "#0d6efd" 2 ],
    [ Mut.nodeColor 3 { background := "#198754", border := "#146c43" },
      Mut.edgeColor 1 "#495057" ] ]

/-- Embeds `simulateDataExfiltration` (simulation.js lines 755-822): six timed
steps.  The `dataFlowStyle` record nests `width` and `arrows` inside the
edge `color` object (lines 768-772), so only its color takes effect; step 6
sets `dashes: [5, 5]` at top level, which does take effect. -/
def dataExfiltrationSteps : List (List Mut) :=
  [ [ Mut.nodeColor 7 { background := "#dc3545", border := "#b02a37" } ],
    [ Mut.edgeColor 5 "#fd7e14",
      Mut.nodeColor 6 { background := "#dc3545", border := "#b02a37" } ],
    [ Mut.edgeColor 3 "#fd7e14",
      Mut.nodeColor 4 { background := "#dc3545", border := "#b02a37" } ],
    [ Mut.edgeColor 4 "#fd7e14",
      Mut.nodeColor 5 { background := "#dc3545", border := "#b02a37" } ],
    [ Mut.edgeColor 2 "#fd7e14", Mut.edgeColor 1 "#fd7e14", Mut.edgeColor 0 "#fd7e14" ],
    [ Mut.edgeColorDashes 0 "#495057" true,
      Mut.nodeColor 2 { background := "#0d6efd", border := "#0a58ca" } ] ]

/-- Embeds `simulateGenericAttack` (simulation.js lines 827-848): three timed steps. -/
def genericSteps : List (List Mut) :=
  [ [ Mut.nodeColor 8 { background := "#dc3545", border := "#b02a37" } ],
    [ Mut.nodeColor 2 { background := "#0d6efd", border := "#0a58ca" } ],
    [ Mut.nodeColor 8 { background := "#198754", border := "#146c43" } ] ]

/-- Embeds `updateNetworkForScenario` (simulation.js lines 599-617): selects the
transition script of the scenario, defaulting to the generic attack. -/
def updateNetworkForScenario (scenario : String) : List (List Mut) :=
  if scenario = "ransomware" then ransomwareSteps
  else if scenario = "ddos" then ddosSteps
  else if scenario = "data_exfiltration" then dataExfiltrationSteps
  else genericSteps

/-- Fire one timed step: apply its batch of updates in order. -/
def applyStep (g : Graph) (ms : List Mut) : Graph :=
  ms.foldl (fun g m => applyMut m g) g

/-- The graph after the first `n` timed steps of a scenario have fired,
starting from the initial topology.  Reset can be invoked at any moment, so
every such prefix state is reachable. -/
def reachGraph (scenario : String) (n : Nat) : Graph :=
  ((updateNetworkForScenario scenario).take n).foldl applyStep initGraph

/-- Per-node part of `resetNetworkVisualization` (simulation.js lines
233-247): internet and firewall (ids 1 and 2) are skipped; server, desktop
and database shapes get the nominal green; icon shapes get white/cyan. -/
def resetNodeStyle (v : GNode) : GNode :=
  if v.id = 1 ∨ v.id = 2 then v
  else if v.shape = "server" ∨ v.shape = "desktop" ∨ v.shape = "database" then
    { v with color := some { background := "#198754", border := "#146c43" } }
  else if v.shape = "icon" then
    { v with color := some { background := "#ffffff", border := "#0dcaf0" } }
  else v

/-- Per-edge part of `resetNetworkVisualization` (simulation.js lines
250-256): restore the default color and clear dashes.  Width is not
mentioned and therefore not restored. -/
def resetEdgeStyle (e : GEdge) : GEdge :=
  { e with color := "#495057", dashes := false }

/-- Embeds `resetNetworkVisualization` (simulation.js lines 225-257). -/
def resetNetworkVisualization (g : Graph) : Graph :=
  { nodes := g.nodes.map resetNodeStyle, edges := g.edges.map resetEdgeStyle }

/-- Default node used for guarded positional access in theorem statements. -/
def dummyNode : GNode := { id := 0, shape := "", color := none }

/-- Post-reset node check: every non-perimeter node of shape server,
desktop or database carries the initial nominal green, and every
non-perimeter icon node carries the fixed white/cyan reset color. -/
def nodeResetOk (v : GNode) : Bool :=
  if v.id = 1 ∨ v.id = 2 then true
  else if v.shape = "server" ∨ v.shape = "desktop" ∨ v.shape = "database" then
    v.color == some { background := "#198754", border := "#146c43" }
  else if v.shape = "icon" then
    v.color == some { background := "#ffffff", border := "#0dcaf0" }
  else true

/-- Post-reset edge check: default color restored and dashes cleared. -/
def edgeResetOk (e : GEdge) : Bool :=
  e.color == "#495057" && e.dashes == false

/-! ## Playback session (startSimulation, pause, runSimulation, completion) -/

/-- A row of the defense table, derived by `addDefenseAction`
(simulation.js lines 464-495): timestamp, inferred attack vector,
defense action name, effectiveness rating. -/
structure DefenseRecord where
  time : String
  vector : String
  defense : String
  effectiveness : Option String
deriving DecidableEq, Repr

/-- Derive the defense-table row from a defense event. -/
def mkDefenseRecord (e : ScriptEvent) : DefenseRecord :=
  { time := e.time,
    vector := determineAttackVector e.message,
    defense := e.defense.getD "",
    effectiveness := e.effectiveness }

/-- The guard of `addDefenseAction` inside `addSimulationEvent`
(simulation.js line 455): `event.type === defense && event.defense`. -/
def isDefenseWithAction (e : ScriptEvent) : Bool :=
  e.type == EventType.defense && e.defense.isSome

/-- The defense ledger determined by a delivered event log: one derived
record per delivered defense event carrying a defense action. -/
def ledgerOf (log : List ScriptEvent) : List DefenseRecord :=
  (log.filter isDefenseWithAction).map mkDefenseRecord

/-- One `setInterval` closure created by `runSimulation` (simulation.js
lines 384-411): its captured `events` array and the mutable counters `i`
and `eventCount`. -/
structure Interval where
  events : List ScriptEvent
  i : Nat
  eventCount : Nat
deriving DecidableEq, Repr

/-- The final report assembled by `showSimulationResults` (simulation.js
lines 869-893).  The rendered scenario name is the display text of the
select control; the engine-side content is the selected scenario key. -/
structure Report where
  scenarioName : String
  duration : String
  defenseScore : Int
  attackScore : Int
deriving DecidableEq, Repr

/-- Embeds `Math.floor(Math.random() * 30) + 65` (simulation.js line 875), with
the randomness source `r` made explicit. -/
def defenseScore (r : ℚ) : ℤ := ⌊r * 30⌋ + 65

/-- Embeds `Math.floor(Math.random() * 50) + 20` (simulation.js line 876), with
the randomness source `r` made explicit. -/
def attackScore (r : ℚ) : ℤ := ⌊r * 50⌋ + 20

/-- The playback session state: the global `simulationRunning` flag and
start-button label, the selection parameters, the live `setInterval`
closures in registration order, the rendered event log and defense table,
the number of times `simulationCompleted` has run, the produced report,
the topology graph with the scheduled scenario transition steps, and the
two randomness draws consumed at completion.  Real-time timer phase is
collapsed: one `tick` fires every live interval once, and the one-second
completion delay lands at the end of the same tick. -/
structure SimState where
  simulationRunning : Bool
  startButtonLabel : String
  selectedScenario : String
  selectedDifficulty : String
  selectedTargets : List String
  intervals : List Interval
  eventLog : List ScriptEvent
  defenseLedger : List DefenseRecord
  completions : Nat
  report : Option Report
  graph : Graph
  graphTimers : List (List Mut)
  r1 : ℚ
  r2 : ℚ
deriving DecidableEq, Repr

/-- The idle page state before any interaction, with the randomness draws
fixed up front. -/
def initState (r1 r2 : ℚ) : SimState :=
  { simulationRunning := false,
    startButtonLabel := "Start Simulation",
    selectedScenario := "",
    selectedDifficulty := "",
    selectedTargets := [],
    intervals := [],
    eventLog := [],
    defenseLedger := [],
    completions := 0,
    report := none,
    graph := initGraph,
    graphTimers := [],
    r1 := r1,
    r2 := r2 }

/-- The PlaybackSession status vocabulary of the spec. -/
inductive Status
  | idle
  | running
  | paused
  | completed
deriving DecidableEq, Repr

/-- Derive the spec-level status from the code-level state: no live
interval means idle (or completed once a run has finished); a live
interval is running or paused according to `simulationRunning`. -/
def SimState.status (s : SimState) : Status :=
  if s.intervals.isEmpty then
    (if s.completions = 0 then Status.idle else Status.completed)
  else if s.simulationRunning then Status.running
  else Status.paused

/-- Embeds `addSimulationEvent` (simulation.js lines 422-458): append the event to
the log, and when it is a defense event carrying a defense action, also
append the derived row to the defense table. -/
def addSimulationEvent (e : ScriptEvent) (s : SimState) : SimState :=
  let s1 := { s with eventLog := s.eventLog ++ [e] }
  if isDefenseWithAction e then
    { s1 with defenseLedger := s1.defenseLedger ++ [mkDefenseRecord e] }
  else s1

/-- Embeds `pauseSimulation` (simulation.js lines 100-110): clear the running flag
and relabel the start button; the interval closures stay registered. -/
def pauseSimulation (s : SimState) : SimState :=
  { s with simulationRunning := false,
           startButtonLabel := "Resume Simulation" }

/-- Embeds `resetSimulationLogs` (simulation.js lines 273-298): clear the rendered
event log and defense table. -/
def resetSimulationLogs (s : SimState) : SimState :=
  { s with eventLog := [], defenseLedger := [] }

/-- Embeds `runSimulation` (simulation.js lines 371-415): register a fresh
interval over the script of the scenario (cursor 0) and schedule the
graph transition timers of the scenario.  Previously registered intervals and timers are
not cancelled. -/
def runSimulation (scenario : String) (s : SimState) : SimState :=
  { s with intervals := s.intervals ++ [{ events := getScenarioEvents scenario, i := 0, eventCount := 0 }],
           graphTimers := s.graphTimers ++ updateNetworkForScenario scenario }

/-- Outcome of a click on the start button. -/
inductive StartOutcome
  | toggledPause
  | validationError
  | started
deriving DecidableEq, Repr

/-- Embeds `startSimulation` (simulation.js lines 53-95): while running, the click
toggles pause; an empty target selection fails validation synchronously
and changes nothing; otherwise the logs are cleared, the selections
recorded, the running flag set, and `runSimulation` is invoked (the 1.5 s
loading delay is collapsed). -/
def startSimulation (scenario difficulty : String) (targets : List String)
    (s : SimState) : StartOutcome × SimState :=
  if s.simulationRunning then (StartOutcome.toggledPause, pauseSimulation s)
  else if targets.length = 0 then (StartOutcome.validationError, s)
  else
    let s1 := resetSimulationLogs s
    let s2 := { s1 with simulationRunning := true,
                        startButtonLabel := "Pause Simulation",
                        selectedScenario := scenario,
                        selectedDifficulty := difficulty,
                        selectedTargets := targets }
    (StartOutcome.started, runSimulation scenario s2)

/-- The report assembled at completion (`showSimulationResults`,
simulation.js lines 869-893). -/
def mkReport (s : SimState) : Report :=
  { scenarioName := s.selectedScenario,
    duration := "1 minute 15 seconds",
    defenseScore := defenseScore s.r1,
    attackScore := attackScore s.r2 }

/-- Embeds `simulationCompleted` (simulation.js lines 853-864) followed by
`showSimulationResults`: clear the running flag, relabel the button, and
produce the report. -/
def simulationCompleted (s : SimState) : SimState :=
  { s with simulationRunning := false,
           startButtonLabel := "Start New Simulation",
           completions := s.completions + 1,
           report := some (mkReport s) }

/-- Fire every live interval once, in registration order (the body of the
`setInterval` callback, simulation.js lines 384-411).  A paused session
leaves each interval untouched; an exhausted interval is cleared and
requests completion; otherwise the event at the cursor is delivered and both
counters advance.  Returns the updated state, the surviving intervals, and
the number of completion requests. -/
def tickIntervals (s : SimState) : List Interval → SimState × List Interval × Nat
  | [] => (s, [], 0)
  | iv :: rest =>
    if ¬ s.simulationRunning then
      let r := tickIntervals s rest
      (r.1, iv :: r.2.1, r.2.2)
    else if iv.events.length ≤ iv.i then
      let r := tickIntervals s rest
      (r.1, r.2.1, r.2.2 + 1)
    else
      let e := iv.events.getD iv.i dummyEvent
      let r := tickIntervals (addSimulationEvent e s) rest
      (r.1, { iv with i := iv.i + 1, eventCount := iv.eventCount + 1 } :: r.2.1, r.2.2)

/-- One scheduler tick: fire every live interval once, then run the
completion handler once per completion request. -/
def tick (s : SimState) : SimState :=
  let r := tickIntervals s s.intervals
  Nat.repeat simulationCompleted r.2.2 { r.1 with intervals := r.2.1 }

/-- Iterates the scheduler tick `n` times. -/
def tickN : Nat → SimState → SimState
  | 0, s => s
  | n + 1, s => tick (tickN n s)

/-- Embeds `resetSimulation` (simulation.js lines 115-134): clear the running flag,
relabel the button, clear the logs, and restore the visualization styling.
Registered intervals and pending graph timers are not cancelled. -/
def resetSimulation (s : SimState) : SimState :=
  let s1 := resetSimulationLogs
    { s with simulationRunning := false, startButtonLabel := "Start Simulation" }
  { s1 with graph := resetNetworkVisualization s1.graph }

/-- The session state immediately after a successful start of `scenario`
(difficulty "medium", target set `["endpoints"]`). -/
def startedState (scenario : String) (r1 r2 : ℚ) : SimState :=
  { simulationRunning := true,
    startButtonLabel := "Pause Simulation",
    selectedScenario := scenario,
    selectedDifficulty := "medium",
    selectedTargets := ["endpoints"],
    intervals := [{ events := getScenarioEvents scenario, i := 0, eventCount := 0 }],
    eventLog := [],
    defenseLedger := [],
    completions := 0,
    report := none,
    graph := initGraph,
    graphTimers := updateNetworkForScenario scenario,
    r1 := r1,
    r2 := r2 }

/-- The session state of an uninterrupted run after `k` delivering ticks
(for `k` up to the script length). -/
def midRun (scenario : String) (r1 r2 : ℚ) (k : Nat) : SimState :=
  { simulationRunning := true,
    startButtonLabel := "Pause Simulation",
    selectedScenario := scenario,
    selectedDifficulty := "medium",
    selectedTargets := ["endpoints"],
    intervals := [{ events := getScenarioEvents scenario, i := k, eventCount := k }],
    eventLog := (getScenarioEvents scenario).take k,
    defenseLedger := ledgerOf ((getScenarioEvents scenario).take k),
    completions := 0,
    report := none,
    graph := initGraph,
    graphTimers := updateNetworkForScenario scenario,
    r1 := r1,
    r2 := r2 }

/-- The session state of an uninterrupted run after completion. -/
def doneRun (scenario : String) (r1 r2 : ℚ) : SimState :=
  { simulationRunning := false,
    startButtonLabel := "Start New Simulation",
    selectedScenario := scenario,
    selectedDifficulty := "medium",
    selectedTargets := ["endpoints"],
    intervals := [],
    eventLog := getScenarioEvents scenario,
    defenseLedger := ledgerOf (getScenarioEvents scenario),
    completions := 1,
    report := some { scenarioName := scenario,
                     duration := "1 minute 15 seconds",
                     defenseScore := defenseScore r1,
                     attackScore := attackScore r2 },
    graph := initGraph,
    graphTimers := updateNetworkForScenario scenario,
    r1 := r1,
    r2 := r2 }

/-- A started session whose interval holds an empty script: the edge case
of the spec (section 4.1, failure/edge policy).  No catalog key produces an
empty script, so the interval state is supplied directly. -/
def emptyScriptRun (r1 r2 : ℚ) : SimState :=
  { startedState "empty" r1 r2 with
      intervals := [{ events := [], i := 0, eventCount := 0 }] }

/-! ## Run characterization lemmas -/

/-- Firing a single live interval that still has events left delivers the
event at the cursor and advances both counters. -/
theorem tickIntervals_deliver (s : SimState) (ev : List ScriptEvent) (i c : Nat)
    (hrun : s.simulationRunning = true) (hi : i < ev.length) :
    tickIntervals s [{ events := ev, i := i, eventCount := c }] =
      (addSimulationEvent (ev.getD i dummyEvent) s,
       [{ events := ev, i := i + 1, eventCount := c + 1 }], 0) := by
  simp [tickIntervals, hrun, Nat.not_le.mpr hi]

/-- Firing a single live interval with an exhausted cursor clears the
interval and requests completion. -/
theorem tickIntervals_complete (s : SimState) (ev : List ScriptEvent) (i c : Nat)
    (hrun : s.simulationRunning = true) (hi : ev.length ≤ i) :
    tickIntervals s [{ events := ev, i := i, eventCount := c }] = (s, [], 1) := by
  simp [tickIntervals, hrun, hi]

/-- A delivering tick moves an uninterrupted run one position forward. -/
theorem tick_midRun (scn : String) (r1 r2 : ℚ) (k : Nat)
    (hk : k < (getScenarioEvents scn).length) :
    tick (midRun scn r1 r2 k) = midRun scn r1 r2 (k + 1) := by
  have hrun : (midRun scn r1 r2 k).simulationRunning = true := rfl
  have hiv : (midRun scn r1 r2 k).intervals
      = [{ events := getScenarioEvents scn, i := k, eventCount := k }] := rfl
  have hE : (getScenarioEvents scn).getD k dummyEvent = (getScenarioEvents scn)[k] :=
    List.getD_eq_getElem _ _ hk
  have htake : (getScenarioEvents scn).take (k + 1)
      = (getScenarioEvents scn).take k ++ [(getScenarioEvents scn)[k]] := by
    rw [List.take_succ, List.getElem?_eq_getElem hk]
    rfl
  unfold tick
  rw [hiv, tickIntervals_deliver _ _ _ _ hrun hk, hE]
  by_cases hdef : isDefenseWithAction ((getScenarioEvents scn)[k]) = true
  · simp only [Nat.repeat, addSimulationEvent, midRun, hdef, if_pos, ledgerOf, htake,
      List.filter_append, List.map_append]
    simp [hdef, List.filter_cons, ledgerOf]
  · simp only [Nat.repeat, addSimulationEvent, midRun, hdef, if_neg, ledgerOf, htake,
      List.filter_append, List.map_append]
    simp [hdef, List.filter_cons, ledgerOf]

/-- The tick after the last delivery completes the run and produces the
report. -/
theorem tick_midRun_done (scn : String) (r1 r2 : ℚ) :
    tick (midRun scn r1 r2 (getScenarioEvents scn).length) = doneRun scn r1 r2 := by
  simp [tick, midRun, doneRun, tickIntervals, simulationCompleted, mkReport, Nat.repeat,
    List.take_length]

/-- With no live interval a tick changes nothing. -/
theorem tick_fixpoint (s : SimState) (h : s.intervals = []) : tick s = s := by
  unfold tick
  rw [h]
  simp [tickIntervals, Nat.repeat]
  cases s
  simp_all

/-- With no live interval any number of ticks changes nothing. -/
theorem tickN_fixpoint (m : Nat) (s : SimState) (h : s.intervals = []) :
    tickN m s = s := by
  induction m with
  | zero => rfl
  | succ m ih =>
    show tick (tickN m s) = s
    rw [ih, tick_fixpoint s h]

/-- Full characterization of an uninterrupted run: after `n` ticks the
session is `n` positions into the script, or completed once `n` passes the
script length. -/
theorem tickN_run (scn : String) (r1 r2 : ℚ) (n : Nat) :
    tickN n (startedState scn r1 r2)
      = if n ≤ (getScenarioEvents scn).length then midRun scn r1 r2 n
        else doneRun scn r1 r2 := by
  induction n with
  | zero =>
    rw [if_pos (Nat.zero_le _)]
    rfl
  | succ n ih =>
    show tick (tickN n (startedState scn r1 r2)) = _
    rw [ih]
    rcases Nat.lt_trichotomy n (getScenarioEvents scn).length with h | h | h
    · rw [if_pos (Nat.le_of_lt h), tick_midRun scn r1 r2 n h,
        if_pos (Nat.succ_le_of_lt h)]
    · rw [if_pos (Nat.le_of_eq h), h, tick_midRun_done, if_neg (by omega)]
    · rw [if_neg (by omega), if_neg (by omega)]
      exact tick_fixpoint _ rfl

/-- The event log after `n` ticks of an uninterrupted run is exactly the
first `n` events of the script. -/
theorem eventLog_tickN (scn : String) (r1 r2 : ℚ) (n : Nat) :
    (tickN n (startedState scn r1 r2)).eventLog = (getScenarioEvents scn).take n := by
  rw [tickN_run]
  by_cases h : n ≤ (getScenarioEvents scn).length
  · rw [if_pos h]
    rfl
  · rw [if_neg h, List.take_of_length_le (by omega)]
    rfl

/-- The defense ledger after `n` ticks of an uninterrupted run is the
ledger derived from the first `n` events of the script. -/
theorem defenseLedger_tickN (scn : String) (r1 r2 : ℚ) (n : Nat) :
    (tickN n (startedState scn r1 r2)).defenseLedger
      = ledgerOf ((getScenarioEvents scn).take n) := by
  rw [tickN_run]
  by_cases h : n ≤ (getScenarioEvents scn).length
  · rw [if_pos h]
    rfl
  · rw [if_neg h, List.take_of_length_le (by omega)]
    rfl

/-- Every script of the catalog satisfies the authored invariant: a defense
event always carries a defense action (and so the delivery guard reduces to
the category check). -/
theorem script_defense_ok (scn : String) :
    ∀ e ∈ getScenarioEvents scn,
      isDefenseWithAction e = (e.type == EventType.defense) := by
  unfold getScenarioEvents
  split
  · decide
  · split
    · decide
    · split
      · decide
      · decide

/-- The per-node reset output always satisfies the post-reset node check. -/
theorem nodeResetOk_resetNodeStyle (v : GNode) : nodeResetOk (resetNodeStyle v) = true := by
  unfold resetNodeStyle nodeResetOk
  split_ifs <;> simp_all

/-- The per-edge reset output always satisfies the post-reset edge check. -/
theorem edgeResetOk_resetEdgeStyle (e : GEdge) : edgeResetOk (resetEdgeStyle e) = true := rfl

/-- Resetting any graph leaves every node satisfying the post-reset node
check. -/
theorem reset_nodes_ok (g : Graph) :
    (resetNetworkVisualization g).nodes.all nodeResetOk = true := by
  rw [resetNetworkVisualization, List.all_map]
  exact List.all_eq_true.mpr fun x _ => nodeResetOk_resetNodeStyle x

/-- Resetting any graph leaves every edge satisfying the post-reset edge
check. -/
theorem reset_edges_ok (g : Graph) :
    (resetNetworkVisualization g).edges.all edgeResetOk = true := by
  rw [resetNetworkVisualization, List.all_map]
  exact List.all_eq_true.mpr fun x _ => edgeResetOk_resetEdgeStyle x

/-- Reset never touches edge widths. -/
theorem reset_width_preserved (g : Graph) :
    (resetNetworkVisualization g).edges.map GEdge.width = g.edges.map GEdge.width := by
  rw [resetNetworkVisualization, List.map_map]
  exact List.map_congr_left fun e _ => rfl

/-! ## Claims -/

/-- C1, counterexample: the ransomware script delivers 16 events but 8 (not
7) of them have category defense, no delivered message contains the
lowercase substring "lateral movement" (matching is case-sensitive and the
authored messages capitalize "Lateral"), and the inference applied to the
delivered defense event mentioning lateral movement yields "Unknown"
rather than "Lateral Movement". -/
theorem claim1_counterexample :
    ((getScenarioEvents "ransomware").filter (fun e => e.type == EventType.defense)).length = 8 ∧
    ¬ ((getScenarioEvents "ransomware").filter (fun e => e.type == EventType.defense)).length = 7 ∧
    (∀ e ∈ getScenarioEvents "ransomware", strContains e.message "lateral movement" = false) ∧
    determineAttackVector "Lateral movement partially blocked" = "Unknown" := by
  decide

/-- C1, amended: starting the ransomware scenario and ticking to completion
delivers exactly 16 events, exactly 8 of which have category defense; the
two delivered events mentioning lateral movement capitalize "Lateral" and
the case-sensitive attack-vector inference maps them to "Unknown" (the
label "Lateral Movement" is produced only for messages containing the
lowercase substring "lateral movement"); the defense-ledger rows record
the resulting inferred vectors. -/
theorem claim1_amended_run :
    (tickN 16 (startedState "ransomware" 0 0)).eventLog.length = 16 ∧
    ((tickN 16 (startedState "ransomware" 0 0)).eventLog.filter
        (fun e => e.type == EventType.defense)).length = 8 ∧
    (tickN 17 (startedState "ransomware" 0 0)).status = Status.completed ∧
    determineAttackVector "Lateral movement partially blocked" = "Unknown" ∧
    determineAttackVector
      "Lateral movement attempt detected from Workstation 2 to Admin machine" = "Unknown" ∧
    determineAttackVector "lateral movement" = "Lateral Movement" ∧
    (tickN 16 (startedState "ransomware" 0 0)).defenseLedger.map DefenseRecord.vector
      = ["Unknown", "Unknown", "Unknown", "Unknown",
         "Unauthorized Access", "Encryption", "Unknown", "Unknown"] := by
  decide

/-- C2, counterexample: reset does not return the graph byte-identical to
the initial snapshot.  After the first four DDoS steps, edge 0 has width 6
and reset leaves that width in place (initial width is 2); and after the
full generic scenario, reset paints the icon-shaped Admin node (id 6) with
a white/cyan color although it initially carried no color attribute. -/
theorem claim2_counterexample :
    ((resetNetworkVisualization (reachGraph "ddos" 4)).edges.getD 0 dummyEdge).width = 6 ∧
    (initGraph.edges.getD 0 dummyEdge).width = 2 ∧
    resetNetworkVisualization (reachGraph "ddos" 4) ≠ initGraph ∧
    ((resetNetworkVisualization (reachGraph "generic" 3)).nodes.getD 5 dummyNode).color
      = some { background := "#ffffff", border := "#0dcaf0" } ∧
    (initGraph.nodes.getD 5 dummyNode).id = 6 ∧
    (initGraph.nodes.getD 5 dummyNode).color = none ∧
    resetNetworkVisualization (reachGraph "generic" 3) ≠ initGraph := by
  decide

/-- C2, amended: from every reachable graph state (any prefix of any
scenario transition script applied to the initial topology), reset returns
every non-perimeter server/desktop/database node to its initial nominal
color and every edge to the default color with dashes cleared; the
icon-shaped Admin node is painted a fixed white/cyan color that differs
from its initial (absent) one, perimeter nodes are left untouched, and
edge widths are not restored. -/
theorem claim2_amended_reset (scn : String) (n : Nat) :
    ((resetNetworkVisualization (reachGraph scn n)).nodes.all nodeResetOk = true) ∧
    ((resetNetworkVisualization (reachGraph scn n)).edges.all edgeResetOk = true) ∧
    ((resetNetworkVisualization (reachGraph scn n)).edges.map GEdge.width
      = (reachGraph scn n).edges.map GEdge.width) :=
  ⟨reset_nodes_ok _, reset_edges_ok _, reset_width_preserved _⟩

/-- C3, counterexample: starting with the key "zzz" (not in the catalog
enumeration) and a non-empty target set does not fail validation; it is
accepted and delivers the 4-event default script. -/
theorem claim3_counterexample :
    ¬ ("zzz" ∈ catalogKeys) ∧
    (startSimulation "zzz" "easy" ["endpoints"] (initState 0 0)).1 = StartOutcome.started ∧
    ¬ (startSimulation "zzz" "easy" ["endpoints"] (initState 0 0)).1
        = StartOutcome.validationError ∧
    (tickN 4 ((startSimulation "zzz" "easy" ["endpoints"] (initState 0 0)).2)).eventLog
      = defaultEvents ∧
    defaultEvents.length = 4 := by
  decide

/-- C3, amended: for every scenario key outside the catalog enumeration,
start with a non-empty target set succeeds (no validation error), loads
the 4-event default script, and begins delivering it; validation fails
only for an empty target set. -/
theorem claim3_amended_unknown_key (scn d : String) (targets : List String) (r1 r2 : ℚ)
    (hscn : ¬ scn ∈ catalogKeys) (ht : targets ≠ []) :
    getScenarioEvents scn = defaultEvents ∧
    (startSimulation scn d targets (initState r1 r2)).1 = StartOutcome.started ∧
    (startSimulation scn d targets (initState r1 r2)).2.intervals
      = [{ events := defaultEvents, i := 0, eventCount := 0 }] ∧
    (startSimulation scn d targets (initState r1 r2)).2.simulationRunning = true := by
  have h1 : scn ≠ "ransomware" := by rintro rfl; exact hscn (by decide)
  have h2 : scn ≠ "ddos" := by rintro rfl; exact hscn (by decide)
  have h3 : scn ≠ "data_exfiltration" := by rintro rfl; exact hscn (by decide)
  have hg : getScenarioEvents scn = defaultEvents := by
    unfold getScenarioEvents
    rw [if_neg h1, if_neg h2, if_neg h3]
  have hne : ¬ targets.length = 0 := by
    cases targets with
    | nil => exact absurd rfl ht
    | cons a l => simp
  refine ⟨hg, ?_, ?_, ?_⟩ <;>
    simp [startSimulation, runSimulation, resetSimulationLogs, initState,
      pauseSimulation, hne, hg]

/-- C3, witness: the amended statement instantiated at the concrete
non-catalog key "unknown_key" with target set `["endpoints"]`. -/
theorem claim3_amended_witness :
    ¬ ("unknown_key" ∈ catalogKeys) ∧
    (["endpoints"] : List String) ≠ [] ∧
    (getScenarioEvents "unknown_key" = defaultEvents ∧
      (startSimulation "unknown_key" "easy" ["endpoints"] (initState 0 0)).1
        = StartOutcome.started ∧
      (startSimulation "unknown_key" "easy" ["endpoints"] (initState 0 0)).2.intervals
        = [{ events := defaultEvents, i := 0, eventCount := 0 }] ∧
      (startSimulation "unknown_key" "easy" ["endpoints"]
          (initState 0 0)).2.simulationRunning = true) :=
  ⟨by decide, by decide,
    claim3_amended_unknown_key "unknown_key" "easy" ["endpoints"] 0 0 (by decide) (by decide)⟩

/-- C4, code bug exhibited: start ransomware, deliver two events, pause,
then click start again.  Because pausing clears `simulationRunning`, the
second click takes the full restart path instead of resuming: the two
logged events are wiped, a second interval over the same script is
registered at cursor 0 while the stale first interval stays at cursor 2,
and the next tick delivers event index 2 and event index 0 — a restart
with duplicated, interleaved delivery, not a resume (the pause handler
labels the button "Resume Simulation", so resuming is the documented
intent). -/
theorem claim4_code_divergence :
    (pauseSimulation (tickN 2 (startedState "ransomware" 0 0))).eventLog.length = 2 ∧
    (startSimulation "ransomware" "medium" ["endpoints"]
        (pauseSimulation (tickN 2 (startedState "ransomware" 0 0)))).1
      = StartOutcome.started ∧
    (startSimulation "ransomware" "medium" ["endpoints"]
        (pauseSimulation (tickN 2 (startedState "ransomware" 0 0)))).2.eventLog = [] ∧
    (startSimulation "ransomware" "medium" ["endpoints"]
        (pauseSimulation (tickN 2 (startedState "ransomware" 0 0)))).2.intervals
      = [{ events := ransomwareEvents, i := 2, eventCount := 2 },
         { events := ransomwareEvents, i := 0, eventCount := 0 }] ∧
    (tick (startSimulation "ransomware" "medium" ["endpoints"]
        (pauseSimulation (tickN 2 (startedState "ransomware" 0 0)))).2).eventLog
      = [ransomwareEvents.getD 2 dummyEvent, ransomwareEvents.getD 0 dummyEvent] := by
  decide

/-- C5: for every scenario key, the event log of one uninterrupted run is,
after every tick count `n`, exactly the first `n` events of the authored
script — same events, same order, one per tick, with no reordering and no
duplication — and equals the full script at completion. -/
theorem claim5_delivery_order (scn : String) (r1 r2 : ℚ) (n : Nat) :
    (tickN n (startedState scn r1 r2)).eventLog = (getScenarioEvents scn).take n ∧
    (tickN (getScenarioEvents scn).length (startedState scn r1 r2)).eventLog
      = getScenarioEvents scn := by
  refine ⟨eventLog_tickN scn r1 r2 n, ?_⟩
  rw [eventLog_tickN, List.take_length]

/-- C6: at every point of every scenario playback, the defense ledger is
at most as long as the event log, equals the ledger derived from the
delivered defense events carrying a defense action (so every record
originates from a delivered defense event), and — since every catalog
script pairs category defense with a defense action — has exactly one
record per delivered defense event. -/
theorem claim6_ledger_invariant (scn : String) (r1 r2 : ℚ) (n : Nat) :
    (tickN n (startedState scn r1 r2)).defenseLedger.length
        ≤ (tickN n (startedState scn r1 r2)).eventLog.length ∧
    (tickN n (startedState scn r1 r2)).defenseLedger
        = ledgerOf ((tickN n (startedState scn r1 r2)).eventLog) ∧
    (tickN n (startedState scn r1 r2)).defenseLedger.length
        = ((tickN n (startedState scn r1 r2)).eventLog.filter
            (fun e => e.type == EventType.defense)).length := by
  have hlog := eventLog_tickN scn r1 r2 n
  have hled := defenseLedger_tickN scn r1 r2 n
  refine ⟨?_, ?_, ?_⟩
  · rw [hlog, hled, ledgerOf, List.length_map]
    exact List.length_filter_le _ _
  · rw [hlog, hled]
  · rw [hlog, hled, ledgerOf, List.length_map,
      List.filter_congr fun e he => script_defense_ok scn e (List.take_subset n _ he)]

/-- C7: starting with an empty target set fails validation synchronously,
returns the state unchanged (status idle, empty log and ledger, initial
topology, no scheduled graph timers), and delivers nothing. -/
theorem claim7_empty_targets (scn d : String) (r1 r2 : ℚ) :
    startSimulation scn d [] (initState r1 r2)
        = (StartOutcome.validationError, initState r1 r2) ∧
    (initState r1 r2).status = Status.idle ∧
    (initState r1 r2).eventLog = [] ∧
    (initState r1 r2).defenseLedger = [] ∧
    (initState r1 r2).graph = initGraph ∧
    (initState r1 r2).graphTimers = [] :=
  ⟨rfl, rfl, rfl, rfl, rfl, rfl⟩

/-- C8: for every value of the randomness source in `[0,1)`, the report
produced at completion has defenseScore equal to `floor(r1*30)+65`, which
lies in `[65,95]`, and attackScore equal to `floor(r2*50)+20`, which lies
in `[20,70]`. -/
theorem claim8_score_ranges (scn : String) (r1 r2 : ℚ)
    (h1 : 0 ≤ r1) (h2 : r1 < 1) (h3 : 0 ≤ r2) (h4 : r2 < 1) :
    ∃ rep : Report,
      (tickN ((getScenarioEvents scn).length + 1) (startedState scn r1 r2)).report
        = some rep ∧
      rep.defenseScore = defenseScore r1 ∧ rep.attackScore = attackScore r2 ∧
      65 ≤ rep.defenseScore ∧ rep.defenseScore ≤ 95 ∧
      20 ≤ rep.attackScore ∧ rep.attackScore ≤ 70 := by
  rw [tickN_run, if_neg (by omega)]
  have d1 : (0:ℤ) ≤ ⌊r1 * 30⌋ := Int.floor_nonneg.mpr (mul_nonneg h1 (by norm_num))
  have d2 : ⌊r1 * 30⌋ < 30 := by
    rw [Int.floor_lt]
    push_cast
    nlinarith
  have a1 : (0:ℤ) ≤ ⌊r2 * 50⌋ := Int.floor_nonneg.mpr (mul_nonneg h3 (by norm_num))
  have a2 : ⌊r2 * 50⌋ < 50 := by
    rw [Int.floor_lt]
    push_cast
    nlinarith
  refine ⟨_, rfl, rfl, rfl, ?_, ?_, ?_, ?_⟩ <;>
    simp only [defenseScore, attackScore] <;> omega

/-- C8, witness: the score-range statement at the concrete randomness
draws 0 and 0 for the ransomware scenario. -/
theorem claim8_score_ranges_witness :
    ∃ rep : Report,
      (tickN ((getScenarioEvents "ransomware").length + 1)
          (startedState "ransomware" 0 0)).report = some rep ∧
      rep.defenseScore = defenseScore 0 ∧ rep.attackScore = attackScore 0 ∧
      65 ≤ rep.defenseScore ∧ rep.defenseScore ≤ 95 ∧
      20 ≤ rep.attackScore ∧ rep.attackScore ≤ 70 :=
  claim8_score_ranges "ransomware" 0 0 (by norm_num) (by norm_num) (by norm_num) (by norm_num)

/-- C9: for every scenario key (in particular every catalog key), an
uninterrupted run reaches the completed status after script-length plus
one ticks, produces a non-null report, signals completion exactly once
(further ticks change nothing), and a run over an empty script still
completes with a report after a single tick instead of hanging. -/
theorem claim9_termination (scn : String) (r1 r2 : ℚ) :
    (tickN ((getScenarioEvents scn).length + 1) (startedState scn r1 r2)).status
        = Status.completed ∧
    (tickN ((getScenarioEvents scn).length + 1) (startedState scn r1 r2)).report.isSome
        = true ∧
    (tickN ((getScenarioEvents scn).length + 1) (startedState scn r1 r2)).completions = 1 ∧
    (∀ m : Nat,
      tickN m (tickN ((getScenarioEvents scn).length + 1) (startedState scn r1 r2))
        = tickN ((getScenarioEvents scn).length + 1) (startedState scn r1 r2)) ∧
    (tick (emptyScriptRun r1 r2)).status = Status.completed ∧
    (tick (emptyScriptRun r1 r2)).report.isSome = true ∧
    (tick (emptyScriptRun r1 r2)).completions = 1 := by
  rw [tickN_run, if_neg (by omega)]
  refine ⟨rfl, rfl, rfl, fun m => tickN_fixpoint m _ rfl, rfl, rfl, rfl⟩

/-- C10: from any running state, pausing twice yields exactly the same
session state as pausing once; the status becomes (and stays) paused, and
the interval cursors, event log and defense ledger are untouched. -/
theorem claim10_pause_idempotent (s : SimState) (h : s.status = Status.running) :
    pauseSimulation (pauseSimulation s) = pauseSimulation s ∧
    (pauseSimulation s).status = Status.paused ∧
    (pauseSimulation s).intervals = s.intervals ∧
    (pauseSimulation s).eventLog = s.eventLog ∧
    (pauseSimulation s).defenseLedger = s.defenseLedger := by
  refine ⟨rfl, ?_, rfl, rfl, rfl⟩
  by_cases hi : s.intervals.isEmpty = true
  · exfalso
    unfold SimState.status at h
    rw [if_pos hi] at h
    split at h <;> simp_all
  · unfold SimState.status
    simp [pauseSimulation, hi]

/-- C10, witness: pause idempotence at the concrete running state reached
right after starting the ransomware scenario. -/
theorem claim10_pause_idempotent_witness :
    pauseSimulation (pauseSimulation (startedState "ransomware" 0 0))
        = pauseSimulation (startedState "ransomware" 0 0) ∧
    (pauseSimulation (startedState "ransomware" 0 0)).status = Status.paused ∧
    (pauseSimulation (startedState "ransomware" 0 0)).intervals
        = (startedState "ransomware" 0 0).intervals ∧
    (pauseSimulation (startedState "ransomware" 0 0)).eventLog
        = (startedState "ransomware" 0 0).eventLog ∧
    (pauseSimulation (startedState "ransomware" 0 0)).defenseLedger
        = (startedState "ransomware" 0 0).defenseLedger :=
  claim10_pause_idempotent (startedState "ransomware" 0 0) rfl

end CyberSim
